import Mathlib

/-!
Verification development for the SwarmRouter orchestration engine
(`src/swarm_router/{config,health,swarm,orchestrator}.py`).

The Python code is shallowly embedded: pure functions become Lean
functions, network I/O becomes explicit oracles (`CallOracle`, probe
functions, `HttpOutcome`), wall-clock latency fields that no claim
depends on are omitted, and Python floats are modelled as rationals.
-/

namespace SwarmRouter

/-! ### Python string primitives

Executable models of the Python string operations the code relies on:
`str.split()` (whitespace tokenisation, empties dropped), `str.lower()`
(ASCII case folding; all configured keywords are ASCII), substring
membership (`kw in s`), `str.splitlines()`, slicing `s[:n]`, and
`sep.join(...)`. All are structural recursions so concrete instances
evaluate by `decide`/`rfl`. -/

/-- Characters Python `str.split()` treats as whitespace (ASCII subset). -/
def pyIsSpace (c : Char) : Bool :=
  c = ' ' || c = '\t' || c = '\n' || c = '\r' ||
  c = Char.ofNat 0x0b || c = Char.ofNat 0x0c

/-- Worker for `pySplitWs`: accumulates the current word reversed. -/
def splitWordsAux : List Char → List Char → List String
  | [], acc => if acc.isEmpty then [] else [String.mk acc.reverse]
  | c :: cs, acc =>
    if pyIsSpace c then
      if acc.isEmpty then splitWordsAux cs []
      else String.mk acc.reverse :: splitWordsAux cs []
    else splitWordsAux cs (c :: acc)

/-- Python `s.split()`: split on whitespace runs, dropping empty tokens. -/
def pySplitWs (s : String) : List String :=
  splitWordsAux s.data []

/-- Python `s.lower()` (ASCII folding, applied characterwise). -/
def pyLower (s : String) : String :=
  String.mk (s.data.map Char.toLower)

/-- Does `hay` start with `needle`? -/
def startsWithList : List Char → List Char → Bool
  | [], _ => true
  | _ :: _, [] => false
  | a :: as, b :: bs => a == b && startsWithList as bs

/-- Python `s.startswith(pre)`. -/
def pyStartsWith (s pre : String) : Bool :=
  startsWithList pre.data s.data

/-- Does `hay` contain `needle` as a contiguous run? -/
def containsList (needle : List Char) : List Char → Bool
  | [] => needle.isEmpty
  | c :: t => startsWithList needle (c :: t) || containsList needle t

/-- Python `needle in hay` on strings. -/
def pyIn (needle hay : String) : Bool :=
  containsList needle.data hay.data

/-- `hay` contains `needle` as a contiguous substring (propositional form). -/
def strIncludes (hay needle : String) : Prop :=
  ∃ pre suf, hay.data = pre ++ needle.data ++ suf

/-- Line-break characters recognised by Python `str.splitlines()`. -/
def isLineBreak (c : Char) : Bool :=
  c = '\n' || c = '\r' || c = Char.ofNat 0x0b || c = Char.ofNat 0x0c ||
  c = Char.ofNat 0x1c || c = Char.ofNat 0x1d || c = Char.ofNat 0x1e ||
  c = Char.ofNat 0x85 || c = Char.ofNat 0x2028 || c = Char.ofNat 0x2029

/-- Worker for `pySplitlines` (`\r\n` counts as a single break; no
trailing empty line). -/
def splitlinesAux : List Char → List Char → List String
  | [], acc => if acc.isEmpty then [] else [String.mk acc.reverse]
  | '\r' :: '\n' :: rest, acc => String.mk acc.reverse :: splitlinesAux rest []
  | c :: rest, acc =>
    if isLineBreak c then String.mk acc.reverse :: splitlinesAux rest []
    else splitlinesAux rest (c :: acc)

/-- Python `s.splitlines()`. -/
def pySplitlines (s : String) : List String :=
  splitlinesAux s.data []

/-- Python slice `s[:n]` (by code points, as Python counts). -/
def pyTake (n : Nat) (s : String) : String :=
  String.mk (s.data.take n)

/-- Python `sep.join(parts)`. -/
def joinSep (sep : String) : List String → String
  | [] => ""
  | [a] => a
  | a :: b :: rest => a ++ sep ++ joinSep sep (b :: rest)

/-- Concatenation of a list of strings (Python `+=` accumulation loop). -/
def concatAll (l : List String) : String :=
  l.foldl (· ++ ·) ""

/-- Python `str(x)` for an optional string (`None` prints as "None"). -/
def pyOptStr : Option String → String
  | none => "None"
  | some s => s

/-- Python truthiness of an optional string (`None` and `""` are falsy). -/
def pyTruthyStr : Option String → Bool
  | none => false
  | some s => !s.isEmpty

/-! ### `config.py` -/

/-- `config.Endpoint`: an LLM API endpoint. -/
structure Endpoint where
  url : String
  api_key : String
  name : String := ""
deriving DecidableEq

/-- `config.ModelEntry`: a model registered in the swarm. -/
structure ModelEntry where
  model_id : String
  tier : String
  endpoint : Endpoint
  expected_latency_s : ℚ := 10
deriving DecidableEq

/-- Default `SwarmConfig.deep_keywords` (Python set literal; order is
irrelevant because only `any` is applied over it). -/
def default_deep_keywords : List String :=
  ["compare", "analyze", "tradeoffs", "architecture", "design", "research",
   "explain in detail", "step by step", "why", "how does", "evaluate",
   "pros and cons", "difference between"]

/-- `config.SwarmConfig` (environment-variable plumbing resolved to the
documented defaults; timeouts are (connect, read) pairs). -/
structure SwarmConfig where
  primary : Endpoint := ⟨"http://localhost:4000", "sk-default", "primary"⟩
  secondary : Option Endpoint := none
  knowledge_url : Option String := none
  timeout_fast : ℚ × ℚ := (5, 30)
  timeout_power : ℚ × ℚ := (5, 60)
  timeout_deep : ℚ × ℚ := (5, 120)
  models : List ModelEntry := []
  t1_max_words : Nat := 20
  t2_max_words : Nat := 60
  deep_keywords : List String := default_deep_keywords

/-- `SwarmConfig.get_tier_models`: models of a tier, in registration order. -/
def SwarmConfig.get_tier_models (cfg : SwarmConfig) (tier : String) : List ModelEntry :=
  cfg.models.filter (fun m => m.tier == tier)

/-- `SwarmConfig.get_tier_timeout` (dict lookup with default). -/
def SwarmConfig.get_tier_timeout (cfg : SwarmConfig) (tier : String) : ℚ × ℚ :=
  if tier == "T1" || tier == "fast" then cfg.timeout_fast
  else if tier == "T2" || tier == "power" then cfg.timeout_power
  else if tier == "T3" || tier == "deep" then cfg.timeout_deep
  else cfg.timeout_power

/-- Word count of a prompt, as `len(prompt.split())`. -/
def wordCount (prompt : String) : Nat :=
  (pySplitWs prompt).length

/-- `any(kw in prompt.lower() for kw in deep_keywords)`. -/
def hasDeepKeyword (cfg : SwarmConfig) (prompt : String) : Bool :=
  cfg.deep_keywords.any (fun kw => pyIn kw (pyLower prompt))

/-- `SwarmConfig.classify_complexity`: classify prompt into T1/T2/T3. -/
def SwarmConfig.classify_complexity (cfg : SwarmConfig) (prompt : String) : String :=
  let words := wordCount prompt
  let has_deep := hasDeepKeyword cfg prompt
  if has_deep || words > cfg.t2_max_words then "T3"
  else if words > cfg.t1_max_words then "T2"
  else "T1"

/-! ### `health.py` -/

/-- Python `dict[k] = v` on an association list: overwrite the first
binding of `k` in place, else append. -/
def setAssoc {β : Type} : List (String × β) → String → β → List (String × β)
  | [], k, v => [(k, v)]
  | (k', v') :: t, k, v =>
    if k' == k then (k, v) :: t else (k', v') :: setAssoc t k v

/-- `health.ServiceHealth`: registered endpoints (name ↦ probe URL, the
probe headers are absorbed into the probe oracle) and the current
up/down status map. -/
structure ServiceHealth where
  endpoints : List (String × String) := []
  status : List (String × Bool) := []

/-- `ServiceHealth.register`: record the endpoint and initialise its
status to down (`False`). -/
def ServiceHealth.register (h : ServiceHealth) (name : String) (health_url : String) :
    ServiceHealth :=
  { endpoints := setAssoc h.endpoints name health_url
    status := setAssoc h.status name false }

/-- `ServiceHealth.refresh`: probe every registered endpoint and write
the results back into the status map. `probe` is the network oracle
(True exactly when `GET url` returns a status < 400). -/
def ServiceHealth.refresh (h : ServiceHealth) (probe : String → Bool) : ServiceHealth :=
  { h with
    status := h.endpoints.foldl (fun st p => setAssoc st p.1 (probe p.2)) h.status }

/-- `ServiceHealth.is_up`: `self._status.get(service, False)`. -/
def ServiceHealth.is_up (h : ServiceHealth) (service : String) : Bool :=
  (h.status.lookup service).getD false

/-! ### `orchestrator.py`: auto-router -/

/-- A chat message (`{"role": r, "content": c}`). -/
abbrev Msg := String × String

/-- The message list built by `auto_route`/`consensus`. -/
def mkMessages (system : Option String) (prompt : String) : List Msg :=
  (match system with
   | some s => [(("system" : String), s)]
   | none => []) ++ [(("user" : String), prompt)]

/-- Oracle for `_chat_completion` followed by `_extract_text`: either
the extracted answer text, or the message of the raised exception.
It absorbs the HTTP transport, retries and timeouts. -/
abbrev CallOracle := ModelEntry → List Msg → Except String String

/-- Python exceptions that can escape the orchestrator's entry points. -/
inductive PyErr where
  | runtimeError (msg : String)
  | timeoutError
deriving DecidableEq

/-- The dict returned by `auto_route` (the measured wall-clock
`latency_s` field is real time and is not modelled). -/
structure RouteResult where
  model : String
  tier : String
  response : String
deriving DecidableEq

/-- `tier_map.get(detected_tier, ["fast"])` in `auto_route`. -/
def tier_map (t : String) : List String :=
  if t == "T1" then ["fast"]
  else if t == "T2" then ["power", "fast"]
  else if t == "T3" then ["deep", "power", "fast"]
  else ["fast"]

/-- The health-skip guard in `auto_route`'s inner loop:
`health and not health.is_up(entry.endpoint.name)`. -/
def skipEntry (h : Option ServiceHealth) (e : ModelEntry) : Bool :=
  match h with
  | some hm => !hm.is_up e.endpoint.name
  | none => false

/-- Inner loop of `auto_route`: try one tier's candidates in
registration order, threading `last_error`. -/
def route_tier (callO : CallOracle) (msgs : List Msg) (h : Option ServiceHealth)
    (t : String) : List ModelEntry → Option String → Except (Option String) RouteResult
  | [], last => .error last
  | e :: rest, last =>
    if skipEntry h e then route_tier callO msgs h t rest last
    else
      match callO e msgs with
      | .ok text => .ok ⟨e.model_id, t, text⟩
      | .error m => route_tier callO msgs h t rest (some m)

/-- Outer loop of `auto_route`: walk the tier search order. -/
def route_search (callO : CallOracle) (msgs : List Msg) (h : Option ServiceHealth)
    (cfg : SwarmConfig) : List String → Option String → Except (Option String) RouteResult
  | [], last => .error last
  | t :: rest, last =>
    match route_tier callO msgs h t (cfg.get_tier_models t) last with
    | .ok r => .ok r
    | .error l2 => route_search callO msgs h cfg rest l2

/-- The flattened candidate sequence of a search order: tiers in order,
and within each tier the registered models in registration order. -/
def flat_candidates (cfg : SwarmConfig) (order : List String) : List (String × ModelEntry) :=
  order.flatMap (fun t => (cfg.get_tier_models t).map (fun m => (t, m)))

/-- Reference linear search over an explicit candidate sequence. -/
def route_flat (callO : CallOracle) (msgs : List Msg) (h : Option ServiceHealth) :
    List (String × ModelEntry) → Option String → Except (Option String) RouteResult
  | [], last => .error last
  | (t, e) :: rest, last =>
    if skipEntry h e then route_flat callO msgs h rest last
    else
      match callO e msgs with
      | .ok text => .ok ⟨e.model_id, t, text⟩
      | .error m => route_flat callO msgs h rest (some m)

/-- `orchestrator.auto_route`. `probe` is the health-probe oracle used
by the initial `health.refresh()`. -/
def auto_route (callO : CallOracle) (probe : String → Bool) (prompt : String)
    (system : Option String) (tier : Option String) (cfg : SwarmConfig)
    (health : Option ServiceHealth) : Except PyErr RouteResult :=
  let h := health.map (fun hm => hm.refresh probe)
  let detected := match tier with
    | some t => t
    | none => cfg.classify_complexity prompt
  let msgs := mkMessages system prompt
  match route_search callO msgs h cfg (tier_map detected) none with
  | .ok r => .ok r
  | .error last =>
    .error (.runtimeError
      ("All models exhausted for tier " ++ detected ++ ". Last error: " ++ pyOptStr last))

/-! ### `orchestrator.py`: consensus engine

Concurrency is determinised: each dispatched call's outcome comes from
`callO`, and `completes e` says whether `e`'s call finishes within the
`as_completed(futs, timeout=call_timeout + 10)` deadline. The collected
result order is modelled as dispatch order (the Python completion order
is a permutation of it; no property below depends on the order). -/

/-- One entry of `consensus`'s `individual` list (`latency_s` omitted). -/
structure ConsInd where
  model : String
  response : Option String
  error : Option String
deriving DecidableEq

/-- The closure `_call` inside `consensus`: health-down endpoints
short-circuit to a synthetic failure without a network call. -/
def cons_call (callO : CallOracle) (h : Option ServiceHealth) (msgs : List Msg)
    (e : ModelEntry) : ConsInd :=
  if skipEntry h e then
    ⟨e.model_id, none, some (e.endpoint.name ++ " unavailable")⟩
  else
    match callO e msgs with
    | .ok text => ⟨e.model_id, some text, none⟩
    | .error ex => ⟨e.model_id, none, some ex⟩

/-- Default model selection in `consensus`: the first registered model
of each of the three tiers, skipping empty tiers. -/
def default_consensus_models (cfg : SwarmConfig) : List ModelEntry :=
  (["fast", "power", "deep"] : List String).filterMap
    (fun t => (cfg.get_tier_models t).head?)

/-- The `successful` filter: `r.get("response")` is truthy. -/
def cons_successful (rs : List ConsInd) : List ConsInd :=
  rs.filter (fun r => pyTruthyStr r.response)

/-- The synthesis prompt built from the original question and each
successful model's answer, in collected order, 1-indexed. -/
def synthesis_prompt (prompt : String) (successful : List ConsInd) : String :=
  "You are a synthesis agent. Multiple AI models answered the same question.\n" ++
  "Combine their insights into a single, comprehensive, non-redundant answer.\n\n" ++
  "ORIGINAL QUESTION:\n" ++ prompt ++ "\n\nMODEL RESPONSES:\n" ++
  concatAll ((List.enumFrom 1 successful).map
    (fun p => "\n--- Model " ++ toString p.1 ++ ": " ++ p.2.model ++ " ---\n" ++
      pyOptStr p.2.response ++ "\n")) ++
  "\nSYNTHESIZED ANSWER:"

/-- The literal-concatenation fallback used when the synthesis routing
call raises: each successful model's labeled answer, joined. -/
def consensus_concat (successful : List ConsInd) : String :=
  joinSep "\n\n---\n\n"
    (successful.map (fun r => "[" ++ r.model ++ "]\n" ++ pyOptStr r.response))

/-- The dict returned by `consensus`. -/
structure ConsensusOut where
  merged : String
  individual : List ConsInd
  model_count : Nat
deriving DecidableEq

/-- `orchestrator.consensus`. If any dispatched call outlives the
shared deadline, the uncaught `TimeoutError` raised by the
`as_completed` iterator escapes (discarding even completed results);
otherwise all results are collected and synthesised. -/
def consensus (callO : CallOracle) (probe : String → Bool)
    (completes : ModelEntry → Bool) (prompt : String)
    (models : Option (List ModelEntry)) (system : Option String)
    (cfg : SwarmConfig) (health : Option ServiceHealth) : Except PyErr ConsensusOut :=
  let h := health.map (fun hm => hm.refresh probe)
  let ms := match models with
    | some l => l
    | none => default_consensus_models cfg
  let msgs := mkMessages system prompt
  if !ms.all completes then .error .timeoutError
  else
    let results := ms.map (cons_call callO h msgs)
    let successful := cons_successful results
    if successful.isEmpty then .error (.runtimeError "All consensus models failed.")
    else
      let sp := synthesis_prompt prompt successful
      let merged := match auto_route callO probe sp none (some "T2") cfg health with
        | .ok m => m.response
        | .error _ => consensus_concat successful
      .ok ⟨merged, results, successful.length⟩

/-! ### `orchestrator.py`: knowledge pipeline -/

/-- `_knowledge_search`: the oracle stands for the HTTP POST plus JSON
shape normalisation; any raised exception degrades to zero results. -/
def knowledge_search (oracle : Except String (List String)) : List String :=
  match oracle with
  | .ok l => l
  | .error _ => []

/-- `_format_context`: first 5 items, each truncated to 500 characters.
Items are modelled as their display text (the dict field selection
`text`/`content`/`summary` is absorbed into the item string). -/
def format_context (results : List String) : String :=
  if results.isEmpty then ""
  else
    joinSep "\n"
      ("RELEVANT KNOWLEDGE FROM MEMORY:" ::
        (List.enumFrom 1 (results.take 5)).map
          (fun p => "[" ++ toString p.1 ++ "] " ++ pyTake 500 p.2))

/-- The `model_info` dict in `pipeline`'s result. -/
inductive ModelInfo where
  | routed (model : String) (tier : String)
  | consensusOf (model_count : Nat)
deriving DecidableEq

/-- The dict returned by `pipeline` (`total_latency_s` is real time and
is not modelled; `stored` echoes the request flag by design). -/
structure PipelineOut where
  answer : String
  prompt_original : String
  prompt_enriched : String
  context_results_count : Nat
  model_info : ModelInfo
  stored : Bool
deriving DecidableEq

/-- `orchestrator.pipeline`. `searchOracle` models the knowledge-store
search; the fire-and-forget `_knowledge_add` thread has no effect on
the returned value and is omitted. -/
def pipeline (callO : CallOracle) (probe : String → Bool)
    (completes : ModelEntry → Bool) (searchOracle : Except String (List String))
    (prompt : String) (enrich : Bool) (store : Bool) (use_consensus : Bool)
    (tier : Option String) (cfg : SwarmConfig) (health : Option ServiceHealth) :
    Except PyErr PipelineOut :=
  let doEnrich := enrich && pyTruthyStr cfg.knowledge_url
  let context_results := if doEnrich then knowledge_search searchOracle else []
  let context_str := format_context context_results
  let enriched_prompt :=
    if doEnrich && !context_str.isEmpty then
      context_str ++ "\n\nUSER QUESTION:\n" ++ prompt
    else prompt
  if use_consensus then
    match consensus callO probe completes enriched_prompt none none cfg health with
    | .error e => .error e
    | .ok r =>
      .ok ⟨r.merged, prompt, if enrich then enriched_prompt else prompt,
        context_results.length, .consensusOf r.model_count, store⟩
  else
    match auto_route callO probe enriched_prompt none tier cfg health with
    | .error e => .error e
    | .ok r =>
      .ok ⟨r.response, prompt, if enrich then enriched_prompt else prompt,
        context_results.length, .routed r.model r.tier, store⟩

/-! ### `swarm.py`: `call_model`

The backend's parsed JSON response is modelled as a JSON value; the
HTTP layer (`asyncio.wait_for` around `_http_post`) is an oracle that
either times out, raises, or delivers a JSON value. -/

/-- A JSON value, as produced by `json.loads`. -/
inductive JVal where
  | null
  | bool (b : Bool)
  | num (q : ℚ)
  | str (s : String)
  | arr (items : List JVal)
  | obj (fields : List (String × JVal))

/-- Python `d[k]` on a JSON value: `KeyError` on a missing key,
`TypeError` on a non-dict. -/
def JVal.getKey : JVal → String → Except Unit JVal
  | .obj fs, k =>
    match fs.lookup k with
    | some v => .ok v
    | none => .error ()
  | _, _ => .error ()

/-- Python `x[0]` on a JSON value. Indexing a non-list fails; the one
divergence (indexing a nonempty string succeeds in Python) leads to the
same `call_model` outcome, because the following `["message"]` lookup
on the resulting string always raises `TypeError`. -/
def JVal.getIdx : JVal → Nat → Except Unit JVal
  | .arr xs, i =>
    match xs.get? i with
    | some v => .ok v
    | none => .error ()
  | _, _ => .error ()

/-- `response["choices"][0]["message"]["content"]`. -/
def extract_content (resp : JVal) : Except Unit JVal := do
  let c ← resp.getKey "choices"
  let c0 ← c.getIdx 0
  let m ← c0.getKey "message"
  m.getKey "content"

/-- A JSON value as stored in the result dict: JSON `null` is Python
`None`, which the dict cannot distinguish from an absent value. -/
def jToPy : JVal → Option JVal
  | .null => none
  | v => some v

/-- `response.get("usage", {}).get("total_tokens")`: fails
(`AttributeError`) when a present `usage` field is not a dict. -/
def usage_tokens (resp : JVal) : Except Unit (Option JVal) :=
  match resp with
  | .obj fs =>
    match (fs.lookup "usage").getD (.obj []) with
    | .obj us => .ok ((us.lookup "total_tokens").bind jToPy)
    | _ => .error ()
  | _ => .error ()

/-- Outcome of the awaited HTTP call inside `call_model`. -/
inductive HttpOutcome where
  | timeout
  | exc (msg : String)
  | resp (j : JVal)

/-- The dict returned by `swarm.call_model` (`elapsed_s` is real time
and is not modelled). -/
structure ModelCallResult where
  model : String
  status : String
  content : Option JVal
  tokens : Option JVal
  error : Option String

/-- `swarm.call_model`: one structured result per dispatched call. The
whole `try` body — including the content extraction and the usage
lookup — is covered by the `except Exception` handler. -/
def call_model (entry : ModelEntry) (outcome : HttpOutcome) : ModelCallResult :=
  match outcome with
  | .timeout => ⟨entry.model_id, "timeout", none, none, none⟩
  | .exc e => ⟨entry.model_id, "error", none, none, some e⟩
  | .resp j =>
    match extract_content j with
    | .error _ => ⟨entry.model_id, "error", none, none, some "response shape error"⟩
    | .ok v =>
      match usage_tokens j with
      | .error _ => ⟨entry.model_id, "error", none, none, some "usage shape error"⟩
      | .ok toks => ⟨entry.model_id, "ok", jToPy v, toks, none⟩

/-! ### `swarm.py`: quality ranking -/

/-- A completed call result as consumed by the ranker (`content` is the
answer text; `None` and `""` are both falsy to `_score_result`). -/
structure CallResult where
  model : String
  status : String
  elapsed_s : ℚ
  content : Option String
deriving DecidableEq

/-- `swarm._score_result`: heuristic quality score. -/
def score_result (r : CallResult) : ℚ :=
  if r.status ≠ "ok" || !pyTruthyStr r.content then -1
  else
    let content := r.content.getD ""
    let length_score :=
      if content.length < 50 then (1 : ℚ) / 10
      else min ((content.length : ℚ) / 500) 3
    let structure_score :=
      (if pyIn "```" content then (1 : ℚ) / 2 else 0) +
      (if (pySplitlines content).any (fun line => pyStartsWith line "#") then (3 : ℚ) / 10
       else 0)
    let speed_score := max 0 (1 - r.elapsed_s / 30)
    length_score + structure_score + speed_score

/-- Descending-score order: `a` may come before `b`. -/
def scoreGe (a b : CallResult) : Prop :=
  score_result b ≤ score_result a

instance : DecidableRel scoreGe := fun a b =>
  inferInstanceAs (Decidable (score_result b ≤ score_result a))

instance : IsTotal CallResult scoreGe :=
  ⟨fun a b => le_total (score_result b) (score_result a)⟩

instance : IsTrans CallResult scoreGe :=
  ⟨fun _ _ _ h1 h2 => le_trans h2 h1⟩

/-- `swarm.rank_results`: Python's `sorted(results, key=_score_result,
reverse=True)` is the stable descending sort by score; it is modelled
by the (stable) insertion sort under `scoreGe`. -/
def rank_results (results : List CallResult) : List CallResult :=
  results.insertionSort scoreGe

/-! ### Concrete fixtures used by witnesses and counterexamples -/

/-- A concrete primary endpoint. -/
def epPrimary : Endpoint := ⟨"http://localhost:4000", "sk-key", "primary"⟩

/-- A concrete fast-tier model on the primary endpoint. -/
def entryFast : ModelEntry := ⟨"m-fast", "fast", epPrimary, 10⟩

/-- A call oracle whose every call succeeds with "answer". -/
def oracleOk : CallOracle := fun _ _ => .ok "answer"

/-- A call oracle whose every call raises with message "boom". -/
def oracleBoom : CallOracle := fun _ _ => .error "boom"

/-- A call oracle whose every call raises with message "crash". -/
def oracleCrash : CallOracle := fun _ _ => .error "crash"

/-- An ok result with 600 characters of content, elapsed 2s. -/
def exampleOk600 : CallResult := ⟨"m600", "ok", 2, some (String.mk (List.replicate 600 'a'))⟩

/-- An ok result with 30 characters of content, elapsed 2s. -/
def exampleOk30 : CallResult := ⟨"m30", "ok", 2, some (String.mk (List.replicate 30 'b'))⟩

/-- A timeout result (content is `None`), elapsed 2s. -/
def exampleTimeout : CallResult := ⟨"mT", "timeout", 2, none⟩

/-- An ok result whose content is the empty string, elapsed 2s. -/
def exampleOkEmpty : CallResult := ⟨"mE", "ok", 2, some ""⟩

/-- An ok result with short non-empty content, elapsed 2s. -/
def exampleOkShort : CallResult := ⟨"mS", "ok", 2, some "hello"⟩

/-- A response envelope whose `content` field is JSON `null`. -/
def badEnvelope : JVal :=
  .obj [("choices", .arr [.obj [("message", .obj [("content", .null)])]])]

/-- A well-formed response envelope with string content "hi". -/
def goodEnvelope : JVal :=
  .obj [("choices", .arr [.obj [("message", .obj [("content", .str "hi")])]])]

/-! ## Theorems -/

/-- C2: `classify_complexity` is a pure function of the prompt and the
configured thresholds/keyword set: any deep keyword (case-insensitive
substring) or a word count above `t2_max_words` yields "T3"; otherwise
a word count above `t1_max_words` yields "T2"; otherwise "T1". Under the
default keyword set, the one-word prompt "why" classifies as "T3". -/
theorem classify_complexity_spec :
    (∀ (cfg : SwarmConfig) (prompt : String),
        (hasDeepKeyword cfg prompt = true → cfg.classify_complexity prompt = "T3")
      ∧ (wordCount prompt > cfg.t2_max_words → cfg.classify_complexity prompt = "T3")
      ∧ (hasDeepKeyword cfg prompt = false → wordCount prompt ≤ cfg.t2_max_words →
          wordCount prompt > cfg.t1_max_words → cfg.classify_complexity prompt = "T2")
      ∧ (hasDeepKeyword cfg prompt = false → wordCount prompt ≤ cfg.t2_max_words →
          wordCount prompt ≤ cfg.t1_max_words → cfg.classify_complexity prompt = "T1"))
    ∧ (SwarmConfig.classify_complexity {} "why" = "T3" ∧ wordCount "why" = 1) := by
  constructor
  · intro cfg prompt
    refine ⟨?_, ?_, ?_, ?_⟩
    · intro h
      simp [SwarmConfig.classify_complexity, h]
    · intro h
      simp [SwarmConfig.classify_complexity, h]
    · intro h1 h2 h3
      simp [SwarmConfig.classify_complexity, h1, h3, Nat.not_lt.mpr h2]
    · intro h1 h2 h3
      simp [SwarmConfig.classify_complexity, h1, Nat.not_lt.mpr h2, Nat.not_lt.mpr h3]
  · exact ⟨by decide, by decide⟩

/-- Witness for C2 at concrete inputs. -/
theorem classify_complexity_spec_witness :
    hasDeepKeyword {} "hello there" = false ∧ wordCount "hello there" ≤ 20 ∧
    SwarmConfig.classify_complexity {} "hello there" = "T1" :=
  ⟨by decide, by decide,
    (classify_complexity_spec.1 {} "hello there").2.2.2 (by decide) (by decide) (by decide)⟩

/-- Searching a concatenated candidate list is searching the first part
and, on exhaustion, continuing with the second, threading `last_error`. -/
theorem route_flat_append (callO : CallOracle) (msgs : List Msg)
    (h : Option ServiceHealth) (xs ys : List (String × ModelEntry)) (last : Option String) :
    route_flat callO msgs h (xs ++ ys) last =
      match route_flat callO msgs h xs last with
      | .ok r => .ok r
      | .error l => route_flat callO msgs h ys l := by
  induction xs generalizing last with
  | nil => rfl
  | cons p xs ih =>
    obtain ⟨t, e⟩ := p
    simp only [List.cons_append, route_flat]
    by_cases hs : skipEntry h e
    · simpa [hs] using ih last
    · simp only [hs, Bool.false_eq_true, if_false]
      cases callO e msgs with
      | ok text => rfl
      | error m => simpa using ih (some m)

/-- One tier's inner loop is the linear search over that tier's
candidates labelled with the tier. -/
theorem route_tier_eq_flat (callO : CallOracle) (msgs : List Msg)
    (h : Option ServiceHealth) (t : String) (es : List ModelEntry) (last : Option String) :
    route_tier callO msgs h t es last =
      route_flat callO msgs h (es.map (fun e => (t, e))) last := by
  induction es generalizing last with
  | nil => rfl
  | cons e es ih =>
    simp only [List.map_cons, route_tier, route_flat]
    by_cases hs : skipEntry h e
    · simpa [hs] using ih last
    · simp only [hs, Bool.false_eq_true, if_false]
      cases callO e msgs with
      | ok text => rfl
      | error m => simpa using ih (some m)

/-- The nested tier-then-candidate loops of `auto_route` visit exactly
the flattened candidate sequence of the search order. -/
theorem route_search_eq_flat (callO : CallOracle) (msgs : List Msg)
    (h : Option ServiceHealth) (cfg : SwarmConfig) (order : List String)
    (last : Option String) :
    route_search callO msgs h cfg order last =
      route_flat callO msgs h (flat_candidates cfg order) last := by
  induction order generalizing last with
  | nil => rfl
  | cons t rest ih =>
    simp only [route_search, flat_candidates, List.flatMap_cons]
    rw [route_flat_append, route_tier_eq_flat]
    cases route_flat callO msgs h ((cfg.get_tier_models t).map (fun e => (t, e))) last with
    | ok r => rfl
    | error l2 => simpa [flat_candidates] using ih l2

/-- C1: `auto_route` tries candidates in exactly the statically defined
fallback order (T1→[fast], T2→[power,fast], T3→[deep,power,fast]),
within each tier in registration order (the nested loops equal the
linear search over the flattened candidate sequence); a tier with no
registered models is skipped silently, so a config whose only model is
registered in tier "fast", forced to tier T3, still reaches and uses
that model after exhausting the empty "deep" and "power" tiers. -/
theorem auto_route_fallback_order :
    (∀ (callO : CallOracle) (msgs : List Msg) (h : Option ServiceHealth)
        (cfg : SwarmConfig) (order : List String) (last : Option String),
      route_search callO msgs h cfg order last =
        route_flat callO msgs h (flat_candidates cfg order) last)
    ∧ (∀ (callO : CallOracle) (probe : String → Bool) (prompt : String)
        (system : Option String) (cfg : SwarmConfig) (m : ModelEntry) (r : String),
      cfg.get_tier_models "deep" = [] →
      cfg.get_tier_models "power" = [] →
      cfg.get_tier_models "fast" = [m] →
      callO m (mkMessages system prompt) = .ok r →
      auto_route callO probe prompt system (some "T3") cfg none =
        .ok ⟨m.model_id, "fast", r⟩) := by
  constructor
  · exact route_search_eq_flat
  · intro callO probe prompt system cfg m r hdeep hpower hfast hcall
    have horder : tier_map "T3" = ["deep", "power", "fast"] := rfl
    simp only [auto_route, horder, route_search, hdeep, hpower, hfast,
      route_tier, skipEntry, hcall]
    simp

/-- Witness for C1: a config whose only model lives in tier "fast",
forced to T3, routes to that model. -/
theorem auto_route_fallback_order_witness :
    auto_route oracleOk (fun _ => true) "q" none (some "T3")
        { models := [entryFast] } none =
      .ok ⟨"m-fast", "fast", "answer"⟩ :=
  auto_route_fallback_order.2 oracleOk (fun _ => true) "q" none
    { models := [entryFast] } entryFast "answer" rfl rfl rfl rfl

/-- The tier inner loop never consults the oracle on a skipped entry:
two oracles agreeing on all non-skipped entries search identically. -/
theorem route_tier_congr (callO callO' : CallOracle) (msgs : List Msg)
    (h : Option ServiceHealth) (t : String)
    (hagree : ∀ e : ModelEntry, skipEntry h e = false → callO e msgs = callO' e msgs) :
    ∀ (es : List ModelEntry) (last : Option String),
      route_tier callO msgs h t es last = route_tier callO' msgs h t es last := by
  intro es
  induction es with
  | nil => intro last; rfl
  | cons e es ih =>
    intro last
    simp only [route_tier]
    by_cases hs : skipEntry h e
    · simp [hs, ih last]
    · rw [if_neg hs, if_neg hs, hagree e (by simpa using hs)]
      cases callO' e msgs with
      | ok text => rfl
      | error m => exact ih (some m)

/-- Tier-order search never consults the oracle on a skipped entry. -/
theorem route_search_congr (callO callO' : CallOracle) (msgs : List Msg)
    (h : Option ServiceHealth) (cfg : SwarmConfig)
    (hagree : ∀ e : ModelEntry, skipEntry h e = false → callO e msgs = callO' e msgs) :
    ∀ (order : List String) (last : Option String),
      route_search callO msgs h cfg order last = route_search callO' msgs h cfg order last := by
  intro order
  induction order with
  | nil => intro last; rfl
  | cons t rest ih =>
    intro last
    simp only [route_search]
    rw [route_tier_congr callO callO' msgs h t hagree]
    cases route_tier callO' msgs h t (cfg.get_tier_models t) last with
    | ok r => rfl
    | error l2 => exact ih l2

/-- C6: with a health monitor supplied, `auto_route` never dispatches a
call to an entry whose (refreshed) endpoint status is down — its result
does not depend on the oracle at such entries — and when the search
exhausts every candidate after at least one observed call error, it
raises an exhaustion `RuntimeError` whose message contains the last
observed call error. -/
theorem auto_route_health_skip_exhaustion :
    (∀ (callO callO' : CallOracle) (probe : String → Bool) (prompt : String)
        (system : Option String) (tier : Option String) (cfg : SwarmConfig)
        (hm : ServiceHealth),
      (∀ e : ModelEntry, (hm.refresh probe).is_up e.endpoint.name = true →
        callO e (mkMessages system prompt) = callO' e (mkMessages system prompt)) →
      auto_route callO probe prompt system tier cfg (some hm) =
        auto_route callO' probe prompt system tier cfg (some hm))
    ∧ (∀ (callO : CallOracle) (probe : String → Bool) (prompt : String)
        (system : Option String) (tier : Option String) (cfg : SwarmConfig)
        (health : Option ServiceHealth) (detected msg : String),
      detected = (match tier with
        | some t => t
        | none => cfg.classify_complexity prompt) →
      route_search callO (mkMessages system prompt)
          (health.map (fun hm => hm.refresh probe)) cfg
          (tier_map detected) none = .error (some msg) →
      ∃ s, auto_route callO probe prompt system tier cfg health =
          .error (.runtimeError s) ∧ strIncludes s msg) := by
  constructor
  · intro callO callO' probe prompt system tier cfg hm hagree
    simp only [auto_route]
    rw [route_search_congr callO callO' (mkMessages system prompt) _ cfg ?_]
    intro e hskip
    apply hagree
    simp only [skipEntry, Option.map_some'] at hskip
    simpa using hskip
  · intro callO probe prompt system tier cfg health detected msg hdet hexh
    simp only [auto_route, ← hdet, hexh]
    refine ⟨_, rfl,
      ("All models exhausted for tier " ++ detected ++ ". Last error: ").data, [], ?_⟩
    simp [pyOptStr]

/-- Witness for C6 at concrete inputs: an empty monitor reports every
endpoint down, so two different oracles route identically; and a config
whose single model's call fails yields an exhaustion message containing
that error. -/
theorem auto_route_health_skip_exhaustion_witness :
    (auto_route oracleBoom (fun _ => true) "q" none (some "T1")
        { models := [entryFast] } (some ⟨[], []⟩) =
      auto_route oracleCrash (fun _ => true) "q" none (some "T1")
        { models := [entryFast] } (some ⟨[], []⟩))
    ∧ (∃ s, auto_route oracleBoom (fun _ => true) "q" none (some "T1")
          { models := [entryFast] } none =
        .error (.runtimeError s) ∧ strIncludes s "boom") := by
  constructor
  · exact auto_route_health_skip_exhaustion.1 oracleBoom oracleCrash (fun _ => true)
      "q" none (some "T1") { models := [entryFast] } ⟨[], []⟩
      (fun e h => absurd h (by simp [ServiceHealth.refresh, ServiceHealth.is_up, List.lookup]))
  · exact auto_route_health_skip_exhaustion.2 oracleBoom (fun _ => true)
      "q" none (some "T1") { models := [entryFast] } none "T1" "boom" rfl rfl

/-- Writing a key makes it readable. -/
theorem setAssoc_lookup_self {β : Type} (l : List (String × β)) (k : String) (v : β) :
    (setAssoc l k v).lookup k = some v := by
  induction l with
  | nil => simp [setAssoc]
  | cons p t ih =>
    obtain ⟨k', v'⟩ := p
    by_cases h : k' = k
    · simp [setAssoc, h]
    · rw [setAssoc, if_neg (by simpa using h), List.lookup_cons,
        show (k == k') = false from beq_eq_false_iff_ne.mpr (Ne.symm h)]
      exact ih

/-- Writing one key does not disturb another. -/
theorem setAssoc_lookup_ne {β : Type} (l : List (String × β)) (k k' : String) (v : β)
    (hne : k ≠ k') : (setAssoc l k v).lookup k' = l.lookup k' := by
  induction l with
  | nil =>
    rw [setAssoc, List.lookup_cons,
      show (k' == k) = false from beq_eq_false_iff_ne.mpr (Ne.symm hne)]
  | cons p t ih =>
    obtain ⟨k0, v0⟩ := p
    by_cases h : k0 = k
    · subst h
      rw [setAssoc, if_pos (by simp), List.lookup_cons, List.lookup_cons,
        show (k' == k0) = false from beq_eq_false_iff_ne.mpr (Ne.symm hne)]
    · rw [setAssoc, if_neg (by simpa using h), List.lookup_cons, List.lookup_cons]
      cases hk : (k' == k0) with
      | true => rfl
      | false => exact ih

/-- `refresh` only writes the status of registered endpoint names. -/
theorem refresh_lookup_of_not_registered (probe : String → Bool) (n : String) :
    ∀ (eps : List (String × String)) (st : List (String × Bool)),
      n ∉ eps.map Prod.fst →
      (eps.foldl (fun st p => setAssoc st p.1 (probe p.2)) st).lookup n = st.lookup n
  | [], _, _ => rfl
  | (k, u) :: eps, st, hmem => by
    simp only [List.map_cons, List.mem_cons, not_or] at hmem
    simp only [List.foldl_cons]
    rw [refresh_lookup_of_not_registered probe n eps _ hmem.2]
    exact setAssoc_lookup_ne st k n (probe u) (fun h => hmem.1 h.symm)

/-- C10: `ServiceHealth` defaults to down — `is_up` is `False` for a
name that was never registered (no status entry) and for a freshly
registered one; `refresh` never creates a status entry for an
unregistered name; and with a monitor supplied, `auto_route`'s result
does not depend on the call oracle at entries whose endpoint name has
no status entry after refresh (they are skipped, never dispatched). -/
theorem health_default_down :
    (∀ (h : ServiceHealth) (n url : String), (h.register n url).is_up n = false)
    ∧ (∀ (h : ServiceHealth) (n : String), h.status.lookup n = none → h.is_up n = false)
    ∧ (∀ (h : ServiceHealth) (probe : String → Bool) (n : String),
        n ∉ h.endpoints.map Prod.fst →
        (h.refresh probe).status.lookup n = h.status.lookup n)
    ∧ (∀ (callO callO' : CallOracle) (probe : String → Bool) (prompt : String)
        (system : Option String) (tier : Option String) (cfg : SwarmConfig)
        (hm : ServiceHealth),
      (∀ e : ModelEntry, ((hm.refresh probe).status.lookup e.endpoint.name).isSome →
        callO e (mkMessages system prompt) = callO' e (mkMessages system prompt)) →
      auto_route callO probe prompt system tier cfg (some hm) =
        auto_route callO' probe prompt system tier cfg (some hm)) := by
  refine ⟨?_, ?_, ?_, ?_⟩
  · intro h n url
    simp [ServiceHealth.register, ServiceHealth.is_up, setAssoc_lookup_self]
  · intro h n hnone
    simp [ServiceHealth.is_up, hnone]
  · intro h probe n hmem
    exact refresh_lookup_of_not_registered probe n h.endpoints h.status hmem
  · intro callO callO' probe prompt system tier cfg hm hagree
    simp only [auto_route]
    rw [route_search_congr callO callO' (mkMessages system prompt) _ cfg ?_]
    intro e hskip
    apply hagree
    simp only [skipEntry, Option.map_some'] at hskip
    simp only [ServiceHealth.is_up] at hskip
    cases hlk : ((hm.refresh probe).status.lookup e.endpoint.name) with
    | none => rw [hlk] at hskip; simp at hskip
    | some b => simp

/-- Witness for C10 at concrete inputs: a fresh register is down, an
empty status map is down, refresh adds nothing for unregistered names,
and an empty monitor makes routing oracle-independent. -/
theorem health_default_down_witness :
    ((ServiceHealth.register ⟨[], []⟩ "svc" "http://svc/health").is_up "svc" = false)
    ∧ (ServiceHealth.is_up ⟨[], []⟩ "ghost" = false)
    ∧ ((ServiceHealth.refresh ⟨[], []⟩ (fun _ => true)).status.lookup "ghost" = none)
    ∧ (auto_route oracleBoom (fun _ => true) "q" none (some "T1")
          { models := [entryFast] } (some ⟨[], []⟩) =
        auto_route oracleCrash (fun _ => true) "q" none (some "T1")
          { models := [entryFast] } (some ⟨[], []⟩)) := by
  refine ⟨?_, ?_, ?_, ?_⟩
  · exact health_default_down.1 ⟨[], []⟩ "svc" "http://svc/health"
  · exact health_default_down.2.1 ⟨[], []⟩ "ghost" rfl
  · rw [health_default_down.2.2.1 ⟨[], []⟩ (fun _ => true) "ghost" (by simp)]
    rfl
  · exact health_default_down.2.2.2 oracleBoom oracleCrash (fun _ => true) "q" none
      (some "T1") { models := [entryFast] } ⟨[], []⟩
      (fun e h => absurd h (by simp [ServiceHealth.refresh, List.lookup]))

/-- Any ok result with truthy (non-`None`, non-empty) content scores at
least 1/10: the length score is at least 1/10, and the structure and
speed components are nonnegative. -/
theorem score_result_ok_ge (o : CallResult) (ho : o.status = "ok")
    (hc : pyTruthyStr o.content = true) : (1 : ℚ) / 10 ≤ score_result o := by
  simp only [score_result, ho, hc]
  rw [if_neg (by simp)]
  have hlen : (1 : ℚ) / 10 ≤
      (if (o.content.getD "").length < 50 then (1 : ℚ) / 10
       else min (((o.content.getD "").length : ℚ) / 500) 3) := by
    split
    · exact le_refl _
    · next h =>
      refine le_min ?_ (by norm_num)
      have h50 : (50 : ℚ) ≤ ((o.content.getD "").length : ℚ) := by
        exact_mod_cast Nat.le_of_not_lt h
      linarith
  have ha1 : (0 : ℚ) ≤ (if pyIn "```" (o.content.getD "") then (1 : ℚ) / 2 else 0) := by
    split <;> norm_num
  have ha2 : (0 : ℚ) ≤
      (if (pySplitlines (o.content.getD "")).any (fun line => pyStartsWith line "#")
       then (3 : ℚ) / 10 else 0) := by
    split <;> norm_num
  have hspeed : (0 : ℚ) ≤ max 0 (1 - o.elapsed_s / 30) := le_max_left _ _
  linarith

set_option maxRecDepth 10000 in
/-- C5 (amended): `rank_results` stably sorts descending by the score
function (status ≠ ok or falsy content scores −1; ok results get the
length/structure/speed components); an ok result with 600-character
content at 2s ranks above an ok result with 30-character content at 2s;
and a timeout result scores strictly below every ok result with
non-empty content. (As stated, the claim fails for an ok result with
empty content, which also scores −1 and ties with the timeout.) -/
theorem rank_results_spec :
    (∀ rs : List CallResult, (rank_results rs).Sorted scoreGe)
    ∧ (∀ t o : CallResult, t.status = "timeout" → o.status = "ok" →
        pyTruthyStr o.content = true → score_result t < score_result o)
    ∧ rank_results [exampleOk30, exampleOk600] = [exampleOk600, exampleOk30] := by
  refine ⟨?_, ?_, ?_⟩
  · intro rs
    exact List.sorted_insertionSort scoreGe rs
  · intro t o ht ho hc
    have hT : score_result t = -1 := by simp [score_result, ht]
    have hO := score_result_ok_ge o ho hc
    rw [hT]
    linarith
  · have e1 : pyTruthyStr (some (String.mk (List.replicate 600 'a'))) = true := by decide
    have e2 : pyIn "```" (String.mk (List.replicate 600 'a')) = false := by decide
    have e3 : (pySplitlines (String.mk (List.replicate 600 'a'))).any
        (fun line => pyStartsWith line "#") = false := by decide
    have e4 : (String.mk (List.replicate 600 'a')).length = 600 := by decide
    have f1 : pyTruthyStr (some (String.mk (List.replicate 30 'b'))) = true := by decide
    have f2 : pyIn "```" (String.mk (List.replicate 30 'b')) = false := by decide
    have f3 : (pySplitlines (String.mk (List.replicate 30 'b'))).any
        (fun line => pyStartsWith line "#") = false := by decide
    have f4 : (String.mk (List.replicate 30 'b')).length = 30 := by decide
    have h600 : score_result exampleOk600 = 6 / 5 + (0 + 0) + max 0 (1 - 2 / 30) := by
      simp only [score_result, exampleOk600, Option.getD_some, e1, e2, e3, e4]
      rw [if_neg (by simp), if_neg (by norm_num), if_neg (by simp), if_neg (by simp)]
      rw [show ((600 : ℕ) : ℚ) / 500 = 6 / 5 by norm_num, min_eq_left (by norm_num)]
    have h30 : score_result exampleOk30 = 1 / 10 + (0 + 0) + max 0 (1 - 2 / 30) := by
      simp only [score_result, exampleOk30, Option.getD_some, f1, f2, f3, f4]
      rw [if_neg (by simp), if_pos (by norm_num), if_neg (by simp), if_neg (by simp)]
    have hlt : score_result exampleOk30 < score_result exampleOk600 := by
      rw [h30, h600]
      linarith [show (1 : ℚ) / 10 < 6 / 5 by norm_num]
    show List.insertionSort scoreGe [exampleOk30, exampleOk600] = [exampleOk600, exampleOk30]
    simp only [List.insertionSort, List.orderedInsert]
    rw [if_neg (show ¬scoreGe exampleOk30 exampleOk600 from not_le.mpr hlt)]

/-- Witness for C5 at concrete inputs: a timeout result scores strictly
below an ok result with content "hello". -/
theorem rank_results_spec_witness :
    exampleTimeout.status = "timeout" ∧ exampleOkShort.status = "ok" ∧
    pyTruthyStr exampleOkShort.content = true ∧
    score_result exampleTimeout < score_result exampleOkShort :=
  ⟨rfl, rfl, rfl, rank_results_spec.2.1 exampleTimeout exampleOkShort rfl rfl rfl⟩

/-- C5 counterexample to the claim as stated: a timeout result and an
ok result with empty content both score −1.0, so the stable sort keeps
the earlier timeout result ranked above the ok result — a timeout does
not rank below *every* ok result regardless of content. -/
theorem rank_results_timeout_tie_counterexample :
    score_result exampleTimeout = score_result exampleOkEmpty
    ∧ rank_results [exampleTimeout, exampleOkEmpty] = [exampleTimeout, exampleOkEmpty]
    ∧ rank_results [exampleTimeout, exampleOkEmpty] ≠ [exampleOkEmpty, exampleTimeout] := by
  refine ⟨by decide, by decide, by decide⟩

/-- C9: `classify_complexity` is deterministic (a pure function of its
arguments); `rank_results` is a stable sort — results with equal score
keep their relative input order — and is idempotent: ranking an
already-ranked list returns it unchanged. -/
theorem classify_deterministic_rank_stable :
    (∀ (cfg : SwarmConfig) (p : String),
      cfg.classify_complexity p = cfg.classify_complexity p)
    ∧ (∀ (rs : List CallResult) (a b : CallResult), score_result a = score_result b →
        List.Sublist [a, b] rs → List.Sublist [a, b] (rank_results rs))
    ∧ (∀ rs : List CallResult, rank_results (rank_results rs) = rank_results rs) := by
  refine ⟨fun _ _ => rfl, ?_, ?_⟩
  · intro rs a b hab hsub
    show List.Sublist [a, b] (List.insertionSort scoreGe rs)
    exact List.pair_sublist_insertionSort (le_of_eq hab.symm) hsub
  · intro rs
    show List.insertionSort scoreGe (rank_results rs) = rank_results rs
    exact List.Sorted.insertionSort_eq (List.sorted_insertionSort scoreGe rs)

/-- Witness for C9 at concrete inputs: two equal-scoring results keep
their input order through ranking. -/
theorem classify_deterministic_rank_stable_witness :
    score_result exampleTimeout = score_result exampleOkEmpty ∧
    List.Sublist [exampleTimeout, exampleOkEmpty]
      (rank_results [exampleTimeout, exampleOkEmpty]) :=
  ⟨by decide,
    classify_deterministic_rank_stable.2.1 [exampleTimeout, exampleOkEmpty]
      exampleTimeout exampleOkEmpty (by decide) (List.Sublist.refl _)⟩

/-- C3: when every dispatched call completes, `consensus` raises the
all-failed `RuntimeError` exactly when zero calls produced a (truthy)
successful response; otherwise it builds the synthesis prompt from the
original question and every successful answer and routes it through
`auto_route` forced to tier "T2" — if that routed call succeeds its
response is the merged answer, and if it raises, the merged answer is
the literal labeled concatenation of the successful answers, with the
synthesis failure never propagated to the caller. -/
theorem consensus_synthesis_spec :
    ∀ (callO : CallOracle) (probe : String → Bool) (completes : ModelEntry → Bool)
      (prompt : String) (models : Option (List ModelEntry)) (system : Option String)
      (cfg : SwarmConfig) (health : Option ServiceHealth)
      (ms : List ModelEntry) (rs : List ConsInd),
    ms = (match models with
      | some l => l
      | none => default_consensus_models cfg) →
    ms.all completes = true →
    rs = ms.map (cons_call callO (health.map (fun hm => hm.refresh probe))
      (mkMessages system prompt)) →
    ((consensus callO probe completes prompt models system cfg health =
        .error (.runtimeError "All consensus models failed.") ↔ cons_successful rs = [])
     ∧ (∀ m : RouteResult, cons_successful rs ≠ [] →
         auto_route callO probe (synthesis_prompt prompt (cons_successful rs)) none
           (some "T2") cfg health = .ok m →
         consensus callO probe completes prompt models system cfg health =
           .ok ⟨m.response, rs, (cons_successful rs).length⟩)
     ∧ (∀ err : PyErr, cons_successful rs ≠ [] →
         auto_route callO probe (synthesis_prompt prompt (cons_successful rs)) none
           (some "T2") cfg health = .error err →
         consensus callO probe completes prompt models system cfg health =
           .ok ⟨consensus_concat (cons_successful rs), rs,
             (cons_successful rs).length⟩)) := by
  intro callO probe completes prompt models system cfg health ms rs hms hall hrs
  have hunfold : consensus callO probe completes prompt models system cfg health =
      (if (cons_successful rs).isEmpty then .error (.runtimeError "All consensus models failed.")
       else
         .ok ⟨(match auto_route callO probe (synthesis_prompt prompt (cons_successful rs))
                none (some "T2") cfg health with
              | .ok m => m.response
              | .error _ => consensus_concat (cons_successful rs)),
           rs, (cons_successful rs).length⟩) := by
    simp only [consensus.eq_def]
    rw [← hms, hall]
    simp only [Bool.not_true, Bool.false_eq_true, if_false, ← hrs]
  refine ⟨?_, ?_, ?_⟩
  · constructor
    · intro h
      by_contra hne
      rw [hunfold, if_neg (by simpa using hne)] at h
      exact Except.noConfusion h
    · intro h
      rw [hunfold, if_pos (by simpa using h)]
  · intro m hne hroute
    rw [hunfold, if_neg (by simpa using hne), hroute]
  · intro err hne hroute
    rw [hunfold, if_neg (by simpa using hne), hroute]

/-- Witness for C3 at concrete inputs: one fast model, a successful
oracle, all calls complete; the synthesis route succeeds and its
response is the merged answer. -/
theorem consensus_synthesis_spec_witness :
    consensus oracleOk (fun _ => true) (fun _ => true) "q" none none
        { models := [entryFast] } none =
      .ok ⟨"answer", [⟨"m-fast", some "answer", none⟩], 1⟩ :=
  (consensus_synthesis_spec oracleOk (fun _ => true) (fun _ => true) "q" none none
      { models := [entryFast] } none [entryFast] [⟨"m-fast", some "answer", none⟩]
      rfl rfl rfl).2.1 ⟨"m-fast", "fast", "answer"⟩ (by decide) rfl

/-- C4 (amended): if any dispatched consensus call has not completed
within the `call_timeout + 10` deadline, the `TimeoutError` raised by
the `as_completed` iterator is not caught: `consensus` raises it to the
caller (discarding even the completed results) instead of returning a
partial `ConsensusResult`. -/
theorem consensus_timeout_raises :
    ∀ (callO : CallOracle) (probe : String → Bool) (completes : ModelEntry → Bool)
      (prompt : String) (models : Option (List ModelEntry)) (system : Option String)
      (cfg : SwarmConfig) (health : Option ServiceHealth),
    (match models with
      | some l => l
      | none => default_consensus_models cfg).all completes = false →
    consensus callO probe completes prompt models system cfg health =
      .error .timeoutError := by
  intro callO probe completes prompt models system cfg health hsome
  simp only [consensus.eq_def]
  rw [hsome]
  rfl

/-- Witness for C4 at concrete inputs. -/
theorem consensus_timeout_raises_witness :
    consensus oracleOk (fun _ => true) (fun _ => false) "q" (some [entryFast]) none
        {} none = .error .timeoutError :=
  consensus_timeout_raises oracleOk (fun _ => true) (fun _ => false) "q"
    (some [entryFast]) none {} none rfl

/-- C4 counterexample to the claim as stated: with a single dispatched
call that misses the shared deadline, `consensus` does not return a
`ConsensusResult` omitting the unfinished call — it raises a
`TimeoutError` to the caller. -/
theorem consensus_timeout_counterexample :
    consensus oracleOk (fun _ => true) (fun _ => false) "q" (some [entryFast]) none
        {} none = .error .timeoutError
    ∧ ∀ out : ConsensusOut,
        consensus oracleOk (fun _ => true) (fun _ => false) "q" (some [entryFast]) none
          {} none ≠ .ok out :=
  ⟨rfl, fun _ h => Except.noConfusion h⟩

/-- C7: with `enrich=True` and a configured knowledge URL, when the
knowledge-store search raises, `pipeline` treats it as zero results:
the returned record has `context_results_count = 0` and an enriched
prompt equal to the original prompt, and the pipeline proceeds to
generation and returns the routed answer — the enrichment failure
never raises out of `pipeline`. -/
theorem pipeline_enrich_failure_degrades :
    ∀ (callO : CallOracle) (probe : String → Bool) (completes : ModelEntry → Bool)
      (err prompt : String) (store : Bool) (tier : Option String)
      (cfg : SwarmConfig) (health : Option ServiceHealth) (r : RouteResult),
    pyTruthyStr cfg.knowledge_url = true →
    auto_route callO probe prompt none tier cfg health = .ok r →
    pipeline callO probe completes (.error err) prompt true store false tier cfg health =
      .ok ⟨r.response, prompt, prompt, 0, .routed r.model r.tier, store⟩ := by
  intro callO probe completes err prompt store tier cfg health r hk hroute
  simp only [pipeline, hk, knowledge_search, format_context, hroute]
  simp [show "".isEmpty = true from rfl]
  rw [hroute]

/-- Witness for C7 at concrete inputs: the store search raises, but the
pipeline still answers via the fast model with zero context results. -/
theorem pipeline_enrich_failure_degrades_witness :
    pipeline oracleOk (fun _ => true) (fun _ => true) (.error "connection refused")
        "hi" true true false none
        { knowledge_url := some "http://localhost:8080/api/v1", models := [entryFast] }
        none =
      .ok ⟨"answer", "hi", "hi", 0, .routed "m-fast" "fast", true⟩ :=
  pipeline_enrich_failure_degrades oracleOk (fun _ => true) (fun _ => true)
    "connection refused" "hi" true none
    { knowledge_url := some "http://localhost:8080/api/v1", models := [entryFast] }
    none ⟨"m-fast", "fast", "answer"⟩ rfl rfl

/-- `null` is the only JSON value stored as Python `None`. -/
theorem jToPy_of_ne_null (v : JVal) (h : v ≠ .null) : jToPy v = some v := by
  cases v with
  | null => exact absurd rfl h
  | bool b => rfl
  | num q => rfl
  | str s => rfl
  | arr xs => rfl
  | obj fs => rfl

/-- C8 (amended): in every `call_model` result, populated content
implies `status == "ok"` (equivalently, a timeout or error result
always carries `content = None`); and a response whose extracted
`choices[0].message.content` is a non-null JSON value with a
well-shaped `usage` field yields `status == "ok"` with that content.
The equivalence fails only when the backend sends JSON `null` content:
the result is then `status == "ok"` with `content = None`. -/
theorem call_model_content_status :
    ∀ (entry : ModelEntry) (outcome : HttpOutcome),
      ((call_model entry outcome).content ≠ none → (call_model entry outcome).status = "ok")
      ∧ ((call_model entry outcome).status ≠ "ok" → (call_model entry outcome).content = none)
      ∧ (outcome = .timeout → (call_model entry outcome).status = "timeout"
          ∧ (call_model entry outcome).content = none)
      ∧ (∀ e, outcome = .exc e → (call_model entry outcome).status = "error"
          ∧ (call_model entry outcome).content = none)
      ∧ (∀ (j v : JVal) (toks : Option JVal), outcome = .resp j →
          extract_content j = .ok v → v ≠ .null → usage_tokens j = .ok toks →
          (call_model entry outcome).status = "ok"
          ∧ (call_model entry outcome).content = some v) := by
  intro entry outcome
  refine ⟨?_, ?_, ?_, ?_, ?_⟩
  · cases outcome with
    | timeout => intro h; exact absurd rfl h
    | exc e => intro h; exact absurd rfl h
    | resp j =>
      cases hx : extract_content j with
      | error u => intro h; simp [call_model, hx] at h
      | ok v =>
        cases hu : usage_tokens j with
        | error u => intro h; simp [call_model, hx, hu] at h
        | ok toks => intro h; simp [call_model, hx, hu]
  · cases outcome with
    | timeout => intro _; rfl
    | exc e => intro _; rfl
    | resp j =>
      cases hx : extract_content j with
      | error u => intro _; simp [call_model, hx]
      | ok v =>
        cases hu : usage_tokens j with
        | error u => intro _; simp [call_model, hx, hu]
        | ok toks => intro h; exact absurd (by simp [call_model, hx, hu]) h
  · intro h
    subst h
    exact ⟨rfl, rfl⟩
  · intro e h
    subst h
    exact ⟨rfl, rfl⟩
  · intro j v toks ho hx hv hu
    subst ho
    simp [call_model, hx, hu, jToPy_of_ne_null v hv]

/-- Witness for C8 at concrete inputs: a well-formed envelope with
string content "hi" yields an ok result carrying that content. -/
theorem call_model_content_status_witness :
    extract_content goodEnvelope = .ok (.str "hi")
    ∧ usage_tokens goodEnvelope = .ok none
    ∧ (call_model entryFast (.resp goodEnvelope)).status = "ok"
    ∧ (call_model entryFast (.resp goodEnvelope)).content = some (.str "hi") :=
  ⟨rfl, rfl,
    ((call_model_content_status entryFast (.resp goodEnvelope)).2.2.2.2 goodEnvelope
      (.str "hi") none rfl rfl (fun h => JVal.noConfusion h) rfl).1,
    ((call_model_content_status entryFast (.resp goodEnvelope)).2.2.2.2 goodEnvelope
      (.str "hi") none rfl rfl (fun h => JVal.noConfusion h) rfl).2⟩

/-- C8 counterexample to the claim as stated: an envelope whose
`content` field is JSON `null` produces `status == "ok"` with
`content = None`, so content is not populated iff the status is ok. -/
theorem call_model_null_content_counterexample :
    (call_model entryFast (.resp badEnvelope)).status = "ok"
    ∧ (call_model entryFast (.resp badEnvelope)).content = none
    ∧ ¬(((call_model entryFast (.resp badEnvelope)).content ≠ none) ↔
        (call_model entryFast (.resp badEnvelope)).status = "ok") := by
  refine ⟨rfl, rfl, ?_⟩
  intro h
  exact (h.mpr rfl) rfl

end SwarmRouter
